import Mathlib

/-!
Verification of the CopySpark generation flows (ad-copy variations,
social-media content, SEO optimization).

The repository's core is three genkit flows, each consisting of a zod
input schema, a zod output schema, a Handlebars prompt template and a
flow wrapper.  This file gives a shallow embedding of that core:

* `Json` models the plain data values exchanged at the flow boundary.
* Each zod schema is embedded as a decoder `Json → Option Record`
  mirroring zod parse semantics: required fields must be present with
  the declared primitive type, `optional()` fields may be absent,
  unknown object keys are stripped (zod's default), arrays require
  every element to validate.
* Each prompt template is embedded as a function from the typed input
  record to the rendered prompt string.  The templates are rendered by
  genkit's dotprompt engine, which is Handlebars: a double-brace
  placeholder substitutes the HTML-escaped field value, a triple-brace
  placeholder substitutes the raw value, and text that is not a
  Handlebars expression (in particular the Jinja-style percent-brace
  markers in the SEO template) is emitted literally.
* The flow wrapper execution harness (`runFlowInstr`) is modelled from
  the spec: it is the sequencing that genkit's `ai.defineFlow` and
  `ai.definePrompt` provide (validate input, render prompt, invoke the
  model, validate the reply); the genkit library is a dependency of the
  repository and its source is not part of this repository.
-/

/-- A plain JSON value: the loosely-typed data crossing the flow boundary. -/
inductive Json where
  | null : Json
  | str (s : String) : Json
  | num (q : Rat) : Json
  | bool (b : Bool) : Json
  | arr (xs : List Json) : Json
  | obj (kvs : List (String × Json)) : Json

/-- Field lookup in a JSON object, as zod does when validating `z.object`. -/
def getField (kvs : List (String × Json)) (k : String) : Option Json :=
  match kvs.find? (fun p => p.fst == k) with
  | some p => some p.snd
  | none => none

/-- Parse of `z.string()`: only a JSON string validates. -/
def decodeString : Json → Option String
  | .str s => some s
  | _ => none

/-- Parse of `z.number()`: only a JSON number validates (no further bound). -/
def decodeNumber : Json → Option Rat
  | .num q => some q
  | _ => none

/-- Parse of `z.array(elem)`: every element must validate. -/
def decodeList (d : Json → Option α) : List Json → Option (List α)
  | [] => some []
  | j :: js => do
      let a ← d j
      let as ← decodeList d js
      pure (a :: as)

/-- Parse of a `z.string().optional()` field of an object: an absent key
validates to `none`, a present key must hold a string. -/
def decodeOptionalStringField (kvs : List (String × Json)) (k : String) :
    Option (Option String) :=
  match getField kvs k with
  | none => some none
  | some j => (decodeString j).map some

/-! ## Data model: the typed records of the three flows -/

/-- Nested audience sub-record of the canonical ad-copy input
(src/ai/flows/generate-content-variations.ts). -/
structure TargetAudience where
  ageRange : String
  gender : String
  location : String
  interests : String
  deriving DecidableEq

/-- Input record of the canonical ad-copy flow. -/
structure GenerateAdCopyVariationsInput where
  productName : String
  productDescription : String
  targetAudience : TargetAudience
  numberOfVariations : Rat
  deriving DecidableEq

/-- One entry of the canonical (richer) ad-copy output. -/
structure AdCopyVariation where
  copy : String
  explanation : String
  deriving DecidableEq

/-- Output record of the canonical ad-copy flow. -/
structure GenerateAdCopyVariationsOutput where
  adCopyVariations : List AdCopyVariation
  deriving DecidableEq

/-- Input record of the social-media flow. -/
structure GenerateSocialMediaContentInput where
  copy : String
  deriving DecidableEq

/-- Output record of the social-media flow. -/
structure GenerateSocialMediaContentOutput where
  content : String
  hashtags : List String
  deriving DecidableEq

/-- Input record of the SEO flow; `targetKeyword` is optional. -/
structure OptimizeContentForSeoInput where
  content : String
  targetKeyword : Option String
  deriving DecidableEq

/-- Metadata sub-record of the SEO output. -/
structure SeoMetadata where
  title : String
  description : String
  deriving DecidableEq

/-- Output record of the SEO flow. -/
structure OptimizeContentForSeoOutput where
  keywords : List String
  metadata : SeoMetadata
  deriving DecidableEq

/-! ## Schema parsers (zod semantics) -/

/-- Parse of the nested `targetAudience` object schema. -/
def decodeTargetAudience : Json → Option TargetAudience
  | .obj kvs => do
      let a ← getField kvs "ageRange" >>= decodeString
      let g ← getField kvs "gender" >>= decodeString
      let l ← getField kvs "location" >>= decodeString
      let i ← getField kvs "interests" >>= decodeString
      pure ⟨a, g, l, i⟩
  | _ => none

/-- `GenerateAdCopyVariationsInputSchema` of the canonical flow file:
productName, productDescription string; targetAudience a nested object;
numberOfVariations `z.number()`. -/
def GenerateAdCopyVariationsInputSchema : Json → Option GenerateAdCopyVariationsInput
  | .obj kvs => do
      let pn ← getField kvs "productName" >>= decodeString
      let pd ← getField kvs "productDescription" >>= decodeString
      let ta ← getField kvs "targetAudience" >>= decodeTargetAudience
      let n ← getField kvs "numberOfVariations" >>= decodeNumber
      pure ⟨pn, pd, ta, n⟩
  | _ => none

/-- Parse of `AdCopyVariationSchema`: an object with `copy` and
`explanation` strings. -/
def decodeAdCopyVariation : Json → Option AdCopyVariation
  | .obj kvs => do
      let c ← getField kvs "copy" >>= decodeString
      let e ← getField kvs "explanation" >>= decodeString
      pure ⟨c, e⟩
  | _ => none

/-- `GenerateAdCopyVariationsOutputSchema`: an object whose
`adCopyVariations` field is an array of variation entries.  The array
carries no length constraint. -/
def GenerateAdCopyVariationsOutputSchema : Json → Option GenerateAdCopyVariationsOutput
  | .obj kvs => do
      let vs ← getField kvs "adCopyVariations" >>= fun j =>
        match j with
        | .arr xs => decodeList decodeAdCopyVariation xs
        | _ => none
      pure ⟨vs⟩
  | _ => none

/-- `GenerateSocialMediaContentInputSchema`: a single required `copy` string. -/
def GenerateSocialMediaContentInputSchema : Json → Option GenerateSocialMediaContentInput
  | .obj kvs => do
      let c ← getField kvs "copy" >>= decodeString
      pure ⟨c⟩
  | _ => none

/-- `GenerateSocialMediaContentOutputSchema`: `content` string plus
`hashtags` array of strings. -/
def GenerateSocialMediaContentOutputSchema : Json → Option GenerateSocialMediaContentOutput
  | .obj kvs => do
      let c ← getField kvs "content" >>= decodeString
      let hs ← getField kvs "hashtags" >>= fun j =>
        match j with
        | .arr xs => decodeList decodeString xs
        | _ => none
      pure ⟨c, hs⟩
  | _ => none

/-- `OptimizeContentForSeoInputSchema`: required `content` string,
optional `targetKeyword` string. -/
def OptimizeContentForSeoInputSchema : Json → Option OptimizeContentForSeoInput
  | .obj kvs => do
      let c ← getField kvs "content" >>= decodeString
      let k ← decodeOptionalStringField kvs "targetKeyword"
      pure ⟨c, k⟩
  | _ => none

/-- Parse of the nested `metadata` object schema of the SEO output. -/
def decodeSeoMetadata : Json → Option SeoMetadata
  | .obj kvs => do
      let t ← getField kvs "title" >>= decodeString
      let d ← getField kvs "description" >>= decodeString
      pure ⟨t, d⟩
  | _ => none

/-- `OptimizeContentForSeoOutputSchema`: `keywords` array of strings plus
a `metadata` sub-record with `title` and `description`. -/
def OptimizeContentForSeoOutputSchema : Json → Option OptimizeContentForSeoOutput
  | .obj kvs => do
      let ks ← getField kvs "keywords" >>= fun j =>
        match j with
        | .arr xs => decodeList decodeString xs
        | _ => none
      let m ← getField kvs "metadata" >>= decodeSeoMetadata
      pure ⟨ks, m⟩
  | _ => none

/-! ## Handlebars rendering primitives

Genkit's dotprompt engine renders the template strings with Handlebars.
A double-brace placeholder emits `escapeExpression(String(value))`;
a triple-brace placeholder emits the raw value; all other template text
is emitted verbatim. -/

/-- Handlebars `escapeExpression` on one character.  The escaped
characters and their replacements are the ones Handlebars uses; the
double quote, apostrophe and backtick are matched by code point. -/
def hbEscapeChar (c : Char) : String :=
  if c == '&' then "&amp;"
  else if c == '<' then "&lt;"
  else if c == '>' then "&gt;"
  else if c.toNat == 34 then "&quot;"
  else if c.toNat == 39 then "&#x27;"
  else if c.toNat == 96 then "&#x60;"
  else if c == '=' then "&#x3D;"
  else String.singleton c

/-- Handlebars `escapeExpression` over a character list. -/
def hbEscapeList : List Char → List Char
  | [] => []
  | c :: cs => (hbEscapeChar c).data ++ hbEscapeList cs

/-- Handlebars `escapeExpression` on a string, applied by every
double-brace placeholder. -/
def hbEscape (s : String) : String :=
  ⟨hbEscapeList s.data⟩

/-- True when the string holds at least one character that Handlebars
`escapeExpression` rewrites. -/
def hbNeedsEscape (s : String) : Bool :=
  s.data.any fun c => hbEscapeChar c != String.singleton c

/-- JavaScript `String(n)` on the numbers the flows exchange; an integral
number prints without a fractional part. -/
def jsNumToString (q : Rat) : String :=
  if q.den = 1 then toString q.num else toString q

/-! ## Prompt renderers

Each renderer is the flow's template with its Handlebars placeholders
substituted; every literal segment is transcribed verbatim from the
source template. -/

/-- Template of `generateSocialMediaContentPrompt`
(suggest-social-media-content.ts); `copy` is a triple-brace (raw)
placeholder. -/
def generateSocialMediaContentPrompt (input : GenerateSocialMediaContentInput) : String :=
  "You are a social media manager and copywriting expert with 30 years of experience.\n\n  You will generate social media content based on the provided copy, and suggest relevant hashtags to extend reach.\n\n  Copy: "
  ++ input.copy
  ++ "\n\n  Your output should be formatted as a JSON object.\n"

/-- Template of `optimizeContentForSeoPrompt` (optimize-for-seo.ts).
`content` and `targetKeyword` are triple-brace (raw) placeholders; an
absent `targetKeyword` renders as the empty string.  The percent-brace
markers around the target-keyword line are Jinja syntax, not
Handlebars, so the engine emits them as literal text. -/
def optimizeContentForSeoPrompt (input : OptimizeContentForSeoInput) : String :=
  "You are an SEO expert. Analyze the following content and suggest relevant keywords and metadata to improve its search engine ranking.\n\nContent: "
  ++ input.content
  ++ "\n\n\x7b% if targetKeyword %\x7dTarget Keyword: "
  ++ (match input.targetKeyword with
      | some k => k
      | none => "")
  ++ "\x7b% endif %\x7d\n\nProvide keywords that are highly relevant and have good search volume. The title should be concise, engaging, and include primary keywords. The description should accurately summarize the content and entice users to click through from search engine results.\n\nKeywords: \nMetadata Title:\nMetadata Description:"

/-- Template of `generateAdCopyVariationsPrompt` in the canonical flow
file src/ai/flows/generate-content-variations.ts (the module the
dashboard imports).  All placeholders are double-brace, so every value
is HTML-escaped by Handlebars. -/
def generateAdCopyVariationsPrompt (input : GenerateAdCopyVariationsInput) : String :=
  "You are a copywriting expert with 30 years of experience, specializing in creating engaging ad copy that converts.\n\nYou will generate "
  ++ hbEscape (jsNumToString input.numberOfVariations)
  ++ " ad copy variations for the following product, tailored to the specified target audience.\n\nProduct Name: "
  ++ hbEscape input.productName
  ++ "\nProduct Description: "
  ++ hbEscape input.productDescription
  ++ "\n\nTarget Audience Details:\n- Age Range: "
  ++ hbEscape input.targetAudience.ageRange
  ++ "\n- Gender: "
  ++ hbEscape input.targetAudience.gender
  ++ "\n- Location: "
  ++ hbEscape input.targetAudience.location
  ++ "\n- Interests: "
  ++ hbEscape input.targetAudience.interests
  ++ "\n\nFor each variation, you must provide:\n1.  **The Ad Copy**: A unique and compelling piece of copy. It should be brief, have a clear call to action, and resonate with the specified audience.\n2.  **The Explanation**: A concise analysis of *why* the ad copy is engaging. Explain the psychological triggers, the choice of words, or the marketing angle used to appeal to the target audience's specific demographics and interests.\n\nYour output must be a JSON object containing an 'adCopyVariations' array. Each element in the array should be an object with 'copy' and 'explanation' fields.\n"

/-- Template of the second `generateAdCopyVariationsPrompt` found in the
copy of the ad-copy flow stored alongside the dashboard page.  This
variant is the one whose instructions name the AIDA and PAS frameworks. -/
def generateAdCopyVariationsPromptDashboardCopy (input : GenerateAdCopyVariationsInput) : String :=
  "You are a copywriting expert with 30 years of experience, specializing in creating engaging ad copy that converts by using timeless psychological frameworks.\n\nYou will generate "
  ++ hbEscape (jsNumToString input.numberOfVariations)
  ++ " ad copy variations for the following product, tailored to the specified target audience. You must use the AIDA or PAS framework for each variation.\n\nProduct Name: "
  ++ hbEscape input.productName
  ++ "\nProduct Description: "
  ++ hbEscape input.productDescription
  ++ "\n\nTarget Audience Details:\n- Age Range: "
  ++ hbEscape input.targetAudience.ageRange
  ++ "\n- Gender: "
  ++ hbEscape input.targetAudience.gender
  ++ "\n- Location: "
  ++ hbEscape input.targetAudience.location
  ++ "\n- Interests: "
  ++ hbEscape input.targetAudience.interests
  ++ "\n\n---\nPsychological Frameworks to Use:\n\n1.  **AIDA (Attention, Interest, Desire, Action):** This is a funnel for your words.\n    *   **Attention:** Start with a headline that grabs them by the collar. Use a bold statement, an intriguing question, or a surprising statistic.\n    *   **Interest:** Keep them reading by providing valuable, relevant information. Talk about them and their problem.\n    *   **Desire:** Paint a picture of a better future. Focus on the benefits, not just the features.\n    *   **Action:** Tell them exactly what to do next with a clear, compelling call-to-action (CTA).\n\n2.  **PAS (Problem, Agitate, Solve):** This one is pure empathy.\n    *   **Problem:** State the problem your audience is facing.\n    *   **Agitate:** Pour a little salt in the wound. Describe the consequences of this problem to make the pain more real.\n    *   **Solve:** Present your solution as the definitive relief to that pain.\n---\n\nFor each variation, you must provide:\n1.  **The Ad Copy**: A unique and compelling piece of copy based on either the AIDA or PAS framework. It should be brief, have a clear call to action, and resonate with the specified audience.\n2.  **The Explanation**: A concise analysis of *why* the ad copy is engaging. Explain which framework (AIDA or PAS) was used and how it was applied to appeal to the target audience's specific demographics and interests.\n\nYour output must be a JSON object containing an 'adCopyVariations' array. Each element in the array should be an object with 'copy' and 'explanation' fields.\n"

/-! ## Flow wrapper harness -/

/-- The failure taxonomy a flow wrapper can signal. -/
inductive FlowError where
  | invalidInput : FlowError
  | invocationError : FlowError
  | invalidModelOutput : FlowError
  deriving DecidableEq

/-- Modelled from the spec: the execution harness genkit's
`ai.defineFlow` and `ai.definePrompt` provide around the repository's
schemas and templates (the genkit library is a dependency, not part of
this repository's sources).  The payload is validated against the input
schema (failure: `invalidInput`, the model is never invoked); the
prompt is rendered and the model invoked once (transport failure:
`invocationError`); the raw reply is validated against the output
schema (failure: `invalidModelOutput`).  The second component counts
model invocations. -/
def runFlowInstr (decodeIn : Json → Option α) (render : α → String)
    (decodeOut : Json → Option β) (model : String → Except Unit Json)
    (payload : Json) : Except FlowError β × Nat :=
  match decodeIn payload with
  | none => (Except.error FlowError.invalidInput, 0)
  | some a =>
    match model (render a) with
    | Except.error _ => (Except.error FlowError.invocationError, 1)
    | Except.ok raw =>
      match decodeOut raw with
      | none => (Except.error FlowError.invalidModelOutput, 1)
      | some b => (Except.ok b, 1)

/-- `generateAdCopyVariationsFlow` of the canonical flow file, run
against an injected model collaborator. -/
def generateAdCopyVariationsFlow (model : String → Except Unit Json) (payload : Json) :
    Except FlowError GenerateAdCopyVariationsOutput :=
  (runFlowInstr GenerateAdCopyVariationsInputSchema generateAdCopyVariationsPrompt
    GenerateAdCopyVariationsOutputSchema model payload).1

/-- `generateSocialMediaContentFlow`, run against an injected model
collaborator. -/
def generateSocialMediaContentFlow (model : String → Except Unit Json) (payload : Json) :
    Except FlowError GenerateSocialMediaContentOutput :=
  (runFlowInstr GenerateSocialMediaContentInputSchema generateSocialMediaContentPrompt
    GenerateSocialMediaContentOutputSchema model payload).1

/-- `optimizeContentForSeoFlow`, run against an injected model
collaborator. -/
def optimizeContentForSeoFlow (model : String → Except Unit Json) (payload : Json) :
    Except FlowError OptimizeContentForSeoOutput :=
  (runFlowInstr OptimizeContentForSeoInputSchema optimizeContentForSeoPrompt
    OptimizeContentForSeoOutputSchema model payload).1

/-! ## Dashboard (UI collaborator) -/

/-- The values collected by the dashboard's ad-copy form
(src/app/dashboard/page.tsx); `targetAudience` is a single flat string
field there. -/
structure AdCopyFormValues where
  productName : String
  productDescription : String
  targetAudience : String
  numberOfVariations : Rat
  tone : String
  language : String
  deriving DecidableEq

/-- UI-side `adCopySchema` of the dashboard page: minimum string
lengths, and `numberOfVariations` coerced to a number bounded to the
range 1 to 5 inclusive (no integrality constraint). -/
def adCopySchema (v : AdCopyFormValues) : Prop :=
  2 ≤ v.productName.length ∧
  10 ≤ v.productDescription.length ∧
  2 ≤ v.targetAudience.length ∧
  1 ≤ v.numberOfVariations ∧ v.numberOfVariations ≤ 5

instance (v : AdCopyFormValues) : Decidable (adCopySchema v) := by
  unfold adCopySchema; infer_instance

/-- The payload `onAdCopySubmit` passes to `generateAdCopyVariations`:
the form values spread as-is (so `targetAudience` stays a flat string
and the `tone` and `language` keys ride along) with
`productDescription` overridden by the style-prefixed text. -/
def onAdCopySubmitPayload (v : AdCopyFormValues) : Json :=
  Json.obj
    [("productName", Json.str v.productName),
     ("productDescription", Json.str
       ("Style: " ++ v.tone ++ ". Language: " ++ v.language ++ ". Description: "
         ++ v.productDescription)),
     ("targetAudience", Json.str v.targetAudience),
     ("numberOfVariations", Json.num v.numberOfVariations),
     ("tone", Json.str v.tone),
     ("language", Json.str v.language)]

/-! ## String containment -/

/-- Boolean prefix test on character lists. -/
def listIsPrefixOf : List Char → List Char → Bool
  | [], _ => true
  | _ :: _, [] => false
  | a :: as, b :: bs => a == b && listIsPrefixOf as bs

/-- Boolean substring test on character lists. -/
def listContains (needle : List Char) : List Char → Bool
  | [] => listIsPrefixOf needle []
  | c :: cs => listIsPrefixOf needle (c :: cs) || listContains needle cs

/-- Boolean substring test on strings. -/
def strContains (needle hay : String) : Bool :=
  listContains needle.data hay.data

/-- Payload builder for the canonical ad-copy input shape: the nested
targetAudience object plus the number of variations. -/
def mkAdCopyPayload (pn pd ar g loc intr : String) (q : Rat) : Json :=
  Json.obj
    [("productName", Json.str pn),
     ("productDescription", Json.str pd),
     ("targetAudience", Json.obj
       [("ageRange", Json.str ar), ("gender", Json.str g),
        ("location", Json.str loc), ("interests", Json.str intr)]),
     ("numberOfVariations", Json.num q)]

/-- JSON encoding of one richer-shape ad-copy variation entry from a
pair of copy text and explanation text. -/
def encAdCopyVariationPair (e : String × String) : Json :=
  Json.obj [("copy", Json.str e.1), ("explanation", Json.str e.2)]

/-! ## Helper lemmas about string containment and escaping -/

theorem strData_append (s t : String) : (s ++ t).data = s.data ++ t.data := by
  cases s; cases t; rfl

theorem listIsPrefixOf_append (n s t : List Char) (h : listIsPrefixOf n s = true) :
    listIsPrefixOf n (s ++ t) = true := by
  induction n generalizing s with
  | nil => rfl
  | cons a as ih =>
    cases s with
    | nil => simp [listIsPrefixOf] at h
    | cons b bs =>
      simp only [listIsPrefixOf, Bool.and_eq_true] at h
      simp only [List.cons_append, listIsPrefixOf, Bool.and_eq_true]
      exact ⟨h.1, ih bs h.2⟩

theorem listIsPrefixOf_self (n : List Char) : listIsPrefixOf n n = true := by
  induction n with
  | nil => rfl
  | cons c cs ih => simp [listIsPrefixOf, ih]

theorem listContains_nil_needle (l : List Char) : listContains [] l = true := by
  cases l <;> simp [listContains, listIsPrefixOf]

theorem listContains_self (n : List Char) : listContains n n = true := by
  cases n with
  | nil => rfl
  | cons c cs => simp [listContains, listIsPrefixOf_self]

theorem listContains_append_left (n s t : List Char) (h : listContains n s = true) :
    listContains n (s ++ t) = true := by
  induction s with
  | nil =>
    cases n with
    | nil => exact listContains_nil_needle t
    | cons a as => simp [listContains, listIsPrefixOf] at h
  | cons c cs ih =>
    simp only [listContains, Bool.or_eq_true] at h
    simp only [List.cons_append, listContains, Bool.or_eq_true]
    rcases h with h | h
    · exact Or.inl (by
        have := listIsPrefixOf_append n (c :: cs) t h
        simpa using this)
    · exact Or.inr (ih h)

theorem listContains_append_right (n s t : List Char) (h : listContains n t = true) :
    listContains n (s ++ t) = true := by
  induction s with
  | nil => exact h
  | cons c cs ih =>
    simp only [List.cons_append, listContains, Bool.or_eq_true]
    exact Or.inr ih

theorem strContains_self (n : String) : strContains n n = true :=
  listContains_self n.data

theorem strContains_append_left (n t s : String) (h : strContains n t = true) :
    strContains n (t ++ s) = true := by
  unfold strContains at h ⊢
  rw [strData_append]
  exact listContains_append_left _ _ _ h

theorem strContains_append_right (n t s : String) (h : strContains n t = true) :
    strContains n (s ++ t) = true := by
  unfold strContains at h ⊢
  rw [strData_append]
  exact listContains_append_right _ _ _ h

theorem hbEscapeList_eq_self (l : List Char)
    (h : (l.any fun c => hbEscapeChar c != String.singleton c) = false) :
    hbEscapeList l = l := by
  induction l with
  | nil => rfl
  | cons c cs ih =>
    simp only [List.any_cons, Bool.or_eq_false_iff] at h
    have hc : hbEscapeChar c = String.singleton c := by
      have h1 := h.1
      simpa using h1
    simp [hbEscapeList, hc, ih h.2, String.singleton]

theorem hbEscape_eq_self (s : String) (h : hbNeedsEscape s = false) : hbEscape s = s := by
  unfold hbNeedsEscape at h
  unfold hbEscape
  cases s with
  | mk l => exact congrArg String.mk (hbEscapeList_eq_self l h)

/-! ## Claim theorems -/

/-- C8: prompt rendering is a pure, deterministic function of the
validated input record.  Each renderer is a function of the record
alone (the source templates are fixed strings substituted from record
fields, with no other state), so rendering the same record twice yields
identical prompt strings. -/
theorem prompt_rendering_deterministic :
    (∀ i : GenerateSocialMediaContentInput,
        generateSocialMediaContentPrompt i = generateSocialMediaContentPrompt i)
    ∧ (∀ i : OptimizeContentForSeoInput,
        optimizeContentForSeoPrompt i = optimizeContentForSeoPrompt i)
    ∧ (∀ i : GenerateAdCopyVariationsInput,
        generateAdCopyVariationsPrompt i = generateAdCopyVariationsPrompt i) :=
  ⟨fun _ => rfl, fun _ => rfl, fun _ => rfl⟩

/-- C2: a payload that fails a flow's input schema makes the flow
wrapper return the invalid-input error, and the model collaborator is
invoked zero times (the invocation count of the instrumented harness is
zero), for every model collaborator. -/
theorem invalid_input_skips_model :
    ∀ (payload : Json) (model : String → Except Unit Json),
      (GenerateAdCopyVariationsInputSchema payload = none →
          runFlowInstr GenerateAdCopyVariationsInputSchema generateAdCopyVariationsPrompt
              GenerateAdCopyVariationsOutputSchema model payload
            = (Except.error FlowError.invalidInput, 0)
          ∧ generateAdCopyVariationsFlow model payload = Except.error FlowError.invalidInput)
      ∧ (GenerateSocialMediaContentInputSchema payload = none →
          runFlowInstr GenerateSocialMediaContentInputSchema generateSocialMediaContentPrompt
              GenerateSocialMediaContentOutputSchema model payload
            = (Except.error FlowError.invalidInput, 0)
          ∧ generateSocialMediaContentFlow model payload = Except.error FlowError.invalidInput)
      ∧ (OptimizeContentForSeoInputSchema payload = none →
          runFlowInstr OptimizeContentForSeoInputSchema optimizeContentForSeoPrompt
              OptimizeContentForSeoOutputSchema model payload
            = (Except.error FlowError.invalidInput, 0)
          ∧ optimizeContentForSeoFlow model payload = Except.error FlowError.invalidInput) := by
  intro payload model
  refine ⟨fun h => ⟨?_, ?_⟩, fun h => ⟨?_, ?_⟩, fun h => ⟨?_, ?_⟩⟩ <;>
    simp [runFlowInstr, generateAdCopyVariationsFlow, generateSocialMediaContentFlow,
      optimizeContentForSeoFlow, h]

/-- Witness for C2: a concrete ad-copy payload missing required fields,
a social-media payload whose copy field has the wrong primitive type,
and a non-object SEO payload are each rejected with the invalid-input
error and zero model invocations. -/
theorem invalid_input_skips_model_witness :
    (runFlowInstr GenerateAdCopyVariationsInputSchema generateAdCopyVariationsPrompt
        GenerateAdCopyVariationsOutputSchema (fun _ => Except.ok (Json.obj []))
        (Json.obj [("productName", Json.str "Smartwatch Pro")])
      = (Except.error FlowError.invalidInput, 0))
    ∧ (runFlowInstr GenerateSocialMediaContentInputSchema generateSocialMediaContentPrompt
        GenerateSocialMediaContentOutputSchema (fun _ => Except.ok (Json.obj []))
        (Json.obj [("copy", Json.num 5)])
      = (Except.error FlowError.invalidInput, 0))
    ∧ (runFlowInstr OptimizeContentForSeoInputSchema optimizeContentForSeoPrompt
        OptimizeContentForSeoOutputSchema (fun _ => Except.ok (Json.obj []))
        (Json.str "not an object")
      = (Except.error FlowError.invalidInput, 0)) :=
  ⟨((invalid_input_skips_model (Json.obj [("productName", Json.str "Smartwatch Pro")])
      (fun _ => Except.ok (Json.obj []))).1 rfl).1,
   ((invalid_input_skips_model (Json.obj [("copy", Json.num 5)])
      (fun _ => Except.ok (Json.obj []))).2.1 rfl).1,
   ((invalid_input_skips_model (Json.str "not an object")
      (fun _ => Except.ok (Json.obj []))).2.2 rfl).1⟩

/-- C1: on a valid payload each flow wrapper surfaces a transport
failure of the model invocation as the invocation error, surfaces a
model reply equal to the empty JSON object (which fails every output
schema) as the invalid-model-output error, and the three error tags of
the taxonomy are pairwise distinct, so a caller can discriminate them. -/
theorem flow_error_taxonomy :
    (∀ (payload : Json) (a : GenerateAdCopyVariationsInput),
        GenerateAdCopyVariationsInputSchema payload = some a →
          generateAdCopyVariationsFlow (fun _ => Except.ok (Json.obj [])) payload
              = Except.error FlowError.invalidModelOutput
          ∧ generateAdCopyVariationsFlow (fun _ => Except.error ()) payload
              = Except.error FlowError.invocationError)
    ∧ (∀ (payload : Json) (a : GenerateSocialMediaContentInput),
        GenerateSocialMediaContentInputSchema payload = some a →
          generateSocialMediaContentFlow (fun _ => Except.ok (Json.obj [])) payload
              = Except.error FlowError.invalidModelOutput
          ∧ generateSocialMediaContentFlow (fun _ => Except.error ()) payload
              = Except.error FlowError.invocationError)
    ∧ (∀ (payload : Json) (a : OptimizeContentForSeoInput),
        OptimizeContentForSeoInputSchema payload = some a →
          optimizeContentForSeoFlow (fun _ => Except.ok (Json.obj [])) payload
              = Except.error FlowError.invalidModelOutput
          ∧ optimizeContentForSeoFlow (fun _ => Except.error ()) payload
              = Except.error FlowError.invocationError)
    ∧ (FlowError.invalidInput ≠ FlowError.invocationError
       ∧ FlowError.invalidInput ≠ FlowError.invalidModelOutput
       ∧ FlowError.invocationError ≠ FlowError.invalidModelOutput) := by
  refine ⟨?_, ?_, ?_, by decide⟩ <;>
    · intro payload a h
      refine ⟨?_, ?_⟩ <;>
        simp [generateAdCopyVariationsFlow, generateSocialMediaContentFlow,
          optimizeContentForSeoFlow, runFlowInstr, h, GenerateAdCopyVariationsOutputSchema,
          GenerateSocialMediaContentOutputSchema, OptimizeContentForSeoOutputSchema, getField]

/-- Witness for C1: concrete valid payloads for the three flows, run
against a stub model that replies with the empty object and against a
stub model that fails at the transport level. -/
theorem flow_error_taxonomy_witness :
    (generateAdCopyVariationsFlow (fun _ => Except.ok (Json.obj []))
        (mkAdCopyPayload "Smartwatch Pro" "Tracks fitness" "25-35" "All" "USA" "fitness" 3)
      = Except.error FlowError.invalidModelOutput
     ∧ generateAdCopyVariationsFlow (fun _ => Except.error ())
        (mkAdCopyPayload "Smartwatch Pro" "Tracks fitness" "25-35" "All" "USA" "fitness" 3)
      = Except.error FlowError.invocationError)
    ∧ (generateSocialMediaContentFlow (fun _ => Except.ok (Json.obj []))
        (Json.obj [("copy", Json.str "Announcing our new eco-friendly water bottle")])
      = Except.error FlowError.invalidModelOutput
     ∧ generateSocialMediaContentFlow (fun _ => Except.error ())
        (Json.obj [("copy", Json.str "Announcing our new eco-friendly water bottle")])
      = Except.error FlowError.invocationError)
    ∧ (optimizeContentForSeoFlow (fun _ => Except.ok (Json.obj []))
        (Json.obj [("content", Json.str "How to save water at home")])
      = Except.error FlowError.invalidModelOutput
     ∧ optimizeContentForSeoFlow (fun _ => Except.error ())
        (Json.obj [("content", Json.str "How to save water at home")])
      = Except.error FlowError.invocationError) :=
  ⟨flow_error_taxonomy.1 _ _ rfl, flow_error_taxonomy.2.1 _ _ rfl,
   flow_error_taxonomy.2.2.1 _ _ rfl⟩

/-- Decoding a JSON array of encoded variation entries always succeeds,
entrywise, whatever the length of the list. -/
theorem decodeList_encAdCopyVariation (l : List (String × String)) :
    decodeList decodeAdCopyVariation (l.map encAdCopyVariationPair)
      = some (l.map fun e => ⟨e.1, e.2⟩) := by
  induction l with
  | nil => rfl
  | cons e es ih =>
    have h1 : decodeAdCopyVariation (encAdCopyVariationPair e) = some ⟨e.1, e.2⟩ := rfl
    simp [List.map, decodeList, h1, ih]

/-- Decoding a JSON array of strings succeeds and returns the same
strings. -/
theorem decodeList_str (l : List String) :
    decodeList decodeString (l.map Json.str) = some l := by
  induction l with
  | nil => rfl
  | cons s ss ih => simp [List.map, decodeList, decodeString, ih]

/-- C6: the ad-copy output schema enforces no relation between the
requested number of variations and the length of the reply array.  Any
array of entries that each carry a copy string and an explanation
string validates, whatever its length; in particular a two-entry reply
to a request with numberOfVariations three is returned as a success by
the flow wrapper. -/
theorem adcopy_output_count_not_enforced :
    (∀ entries : List (String × String),
        GenerateAdCopyVariationsOutputSchema
            (Json.obj [("adCopyVariations", Json.arr (entries.map encAdCopyVariationPair))])
          = some ⟨entries.map fun e => ⟨e.1, e.2⟩⟩)
    ∧ generateAdCopyVariationsFlow
        (fun _ => Except.ok (Json.obj [("adCopyVariations", Json.arr
            [encAdCopyVariationPair ("Buy the Smartwatch Pro today.", "Creates urgency."),
             encAdCopyVariationPair ("Feel stronger every day.", "Appeals to fitness interests.")])]))
        (mkAdCopyPayload "Smartwatch Pro" "Tracks fitness" "25-35" "All" "USA" "fitness" 3)
      = Except.ok ⟨[⟨"Buy the Smartwatch Pro today.", "Creates urgency."⟩,
                    ⟨"Feel stronger every day.", "Appeals to fitness interests."⟩]⟩ := by
  constructor
  · intro entries
    simp [GenerateAdCopyVariationsOutputSchema, getField, List.find?,
      decodeList_encAdCopyVariation]
  · rfl

/-- C10: each output schema strips undeclared keys rather than
rejecting them.  Whenever an object's key list yields the declared
fields with the correct types, validation succeeds and the returned
record holds exactly the declared fields, whatever other keys the
object carries. -/
theorem unknown_keys_stripped :
    (∀ (kvs : List (String × Json)) (c : String) (hs : List String),
        getField kvs "content" = some (Json.str c) →
        getField kvs "hashtags" = some (Json.arr (hs.map Json.str)) →
        GenerateSocialMediaContentOutputSchema (Json.obj kvs) = some ⟨c, hs⟩)
    ∧ (∀ (kvs mkvs : List (String × Json)) (ks : List String) (t d : String),
        getField kvs "keywords" = some (Json.arr (ks.map Json.str)) →
        getField kvs "metadata" = some (Json.obj mkvs) →
        getField mkvs "title" = some (Json.str t) →
        getField mkvs "description" = some (Json.str d) →
        OptimizeContentForSeoOutputSchema (Json.obj kvs) = some ⟨ks, ⟨t, d⟩⟩)
    ∧ (∀ (kvs : List (String × Json)) (entries : List (String × String)),
        getField kvs "adCopyVariations" = some (Json.arr (entries.map encAdCopyVariationPair)) →
        GenerateAdCopyVariationsOutputSchema (Json.obj kvs)
          = some ⟨entries.map fun e => ⟨e.1, e.2⟩⟩) := by
  refine ⟨?_, ?_, ?_⟩
  · intro kvs c hs h1 h2
    simp [GenerateSocialMediaContentOutputSchema, h1, h2, decodeString, decodeList_str]
  · intro kvs mkvs ks t d h1 h2 h3 h4
    simp [OptimizeContentForSeoOutputSchema, decodeSeoMetadata, h1, h2, h3, h4,
      decodeString, decodeList_str]
  · intro kvs entries h1
    simp [GenerateAdCopyVariationsOutputSchema, h1, decodeList_encAdCopyVariation]

/-- Witness for C10: concrete model replies for the three flows in
which every declared field is present and well typed and additional
undeclared keys ride along; each validates and the undeclared keys are
stripped from the returned record. -/
theorem unknown_keys_stripped_witness :
    GenerateSocialMediaContentOutputSchema
        (Json.obj [("content", Json.str "Introducing..."),
                   ("hashtags", Json.arr [Json.str "#EcoFriendly", Json.str "#Sustainability"]),
                   ("mood", Json.str "upbeat"),
                   ("confidence", Json.num 1)])
      = some ⟨"Introducing...", ["#EcoFriendly", "#Sustainability"]⟩
    ∧ OptimizeContentForSeoOutputSchema
        (Json.obj [("keywords", Json.arr [Json.str "water bottle"]),
                   ("metadata", Json.obj [("title", Json.str "Save Water"),
                                          ("description", Json.str "A guide."),
                                          ("author", Json.str "model")]),
                   ("score", Json.num 9)])
      = some ⟨["water bottle"], ⟨"Save Water", "A guide."⟩⟩
    ∧ GenerateAdCopyVariationsOutputSchema
        (Json.obj [("adCopyVariations", Json.arr
            [encAdCopyVariationPair ("Buy now.", "Urgency.")]),
                   ("notes", Json.str "extra")])
      = some ⟨[⟨"Buy now.", "Urgency."⟩]⟩ :=
  ⟨unknown_keys_stripped.1 _ "Introducing..." ["#EcoFriendly", "#Sustainability"] rfl rfl,
   unknown_keys_stripped.2.1 _ _ ["water bottle"] "Save Water" "A guide." rfl rfl rfl rfl,
   unknown_keys_stripped.2.2 _ [("Buy now.", "Urgency.")] rfl⟩

/-- C5 (code evaluated at the failing input): every payload the
dashboard's onAdCopySubmit handler builds carries targetAudience as a
flat string, so it fails the canonical flow's input schema, which
requires a nested audience object; the handler never produces a payload
conforming to the richer Input Record. -/
theorem dashboard_adcopy_payload_fails_canonical_schema :
    ∀ v : AdCopyFormValues,
      GenerateAdCopyVariationsInputSchema (onAdCopySubmitPayload v) = none :=
  fun _ => rfl

/-- Counterexample to C9: the core input schema constrains
numberOfVariations only with z.number, so a negative value and a
non-integer value both pass core validation instead of being rejected. -/
theorem core_accepts_negative_and_fractional_variations :
    GenerateAdCopyVariationsInputSchema
        (mkAdCopyPayload "Smartwatch Pro" "Tracks fitness" "25-35" "All" "USA" "fitness" (-1))
      = some ⟨"Smartwatch Pro", "Tracks fitness", ⟨"25-35", "All", "USA", "fitness"⟩, -1⟩
    ∧ GenerateAdCopyVariationsInputSchema
        (mkAdCopyPayload "Smartwatch Pro" "Tracks fitness" "25-35" "All" "USA" "fitness" (7/2))
      = some ⟨"Smartwatch Pro", "Tracks fitness", ⟨"25-35", "All", "USA", "fitness"⟩, 7/2⟩ :=
  ⟨rfl, rfl⟩

/-- C9 as amended: the core schema requires numberOfVariations only to
be a number — every number, negative, fractional or above five, passes
core validation — while the one-to-five bound is enforced solely by the
dashboard's UI schema. -/
theorem variations_bound_enforced_only_by_ui :
    (∀ (pn pd ar g loc intr : String) (q : Rat),
        GenerateAdCopyVariationsInputSchema (mkAdCopyPayload pn pd ar g loc intr q)
          = some ⟨pn, pd, ⟨ar, g, loc, intr⟩, q⟩)
    ∧ (∀ v : AdCopyFormValues, adCopySchema v →
        1 ≤ v.numberOfVariations ∧ v.numberOfVariations ≤ 5) :=
  ⟨fun _ _ _ _ _ _ _ => rfl, fun _ h => ⟨h.2.2.2.1, h.2.2.2.2⟩⟩

/-- Witness for C9: a payload with numberOfVariations seven passes core
validation, while a concrete form input satisfying the UI schema is
bounded to the one-to-five range. -/
theorem variations_bound_enforced_only_by_ui_witness :
    GenerateAdCopyVariationsInputSchema
        (mkAdCopyPayload "Smartwatch Pro" "Tracks fitness" "25-35" "All" "USA" "fitness" 7)
      = some ⟨"Smartwatch Pro", "Tracks fitness", ⟨"25-35", "All", "USA", "fitness"⟩, 7⟩
    ∧ (1 ≤ (3 : Rat) ∧ (3 : Rat) ≤ 5) :=
  ⟨variations_bound_enforced_only_by_ui.1 "Smartwatch Pro" "Tracks fitness" "25-35" "All" "USA"
      "fitness" 7,
   variations_bound_enforced_only_by_ui.2
     ⟨"Smartwatch Pro", "Tracks your fitness", "Tech fans", 3, "Professional", "English"⟩
     (by decide)⟩

set_option maxRecDepth 100000 in
/-- C3 (code evaluated at the failing input): with the target keyword
absent, the rendered SEO prompt still contains the text Target Keyword
followed by the Jinja-style conditional markers, because the template
wrote the conditional in a syntax the Handlebars engine does not
interpret; the section is not omitted. -/
theorem seo_prompt_renders_literal_conditional_markers :
    strContains "Target Keyword:"
        (optimizeContentForSeoPrompt ⟨"How to save water at home", none⟩) = true
    ∧ strContains "% if targetKeyword %"
        (optimizeContentForSeoPrompt ⟨"How to save water at home", none⟩) = true
    ∧ strContains "% endif %"
        (optimizeContentForSeoPrompt ⟨"How to save water at home", none⟩) = true :=
  ⟨rfl, rfl, rfl⟩

/-- Each of the seven field values of a valid ad-copy input record
appears, HTML-escaped as Handlebars emits double-brace placeholders, in
the canonical rendered ad-copy prompt. -/
theorem adcopy_prompt_contains_escaped_fields (i : GenerateAdCopyVariationsInput) :
    strContains (hbEscape (jsNumToString i.numberOfVariations))
        (generateAdCopyVariationsPrompt i) = true
    ∧ strContains (hbEscape i.productName) (generateAdCopyVariationsPrompt i) = true
    ∧ strContains (hbEscape i.productDescription) (generateAdCopyVariationsPrompt i) = true
    ∧ strContains (hbEscape i.targetAudience.ageRange) (generateAdCopyVariationsPrompt i) = true
    ∧ strContains (hbEscape i.targetAudience.gender) (generateAdCopyVariationsPrompt i) = true
    ∧ strContains (hbEscape i.targetAudience.location) (generateAdCopyVariationsPrompt i) = true
    ∧ strContains (hbEscape i.targetAudience.interests) (generateAdCopyVariationsPrompt i) = true := by
  unfold generateAdCopyVariationsPrompt
  refine ⟨?_, ?_, ?_, ?_, ?_, ?_, ?_⟩
  · iterate 13 apply strContains_append_left
    exact strContains_append_right _ _ _ (strContains_self _)
  · iterate 11 apply strContains_append_left
    exact strContains_append_right _ _ _ (strContains_self _)
  · iterate 9 apply strContains_append_left
    exact strContains_append_right _ _ _ (strContains_self _)
  · iterate 7 apply strContains_append_left
    exact strContains_append_right _ _ _ (strContains_self _)
  · iterate 5 apply strContains_append_left
    exact strContains_append_right _ _ _ (strContains_self _)
  · iterate 3 apply strContains_append_left
    exact strContains_append_right _ _ _ (strContains_self _)
  · apply strContains_append_left
    exact strContains_append_right _ _ _ (strContains_self _)

set_option maxRecDepth 200000 in
/-- Counterexample to C7: the canonical ad-copy template substitutes
its fields with double-brace placeholders, which Handlebars
HTML-escapes, so a product name containing an ampersand does not appear
literally in the rendered prompt. -/
theorem adcopy_prompt_escapes_special_characters :
    strContains "A&B Fitness"
        (generateAdCopyVariationsPrompt
          ⟨"A&B Fitness", "Tracks fitness", ⟨"25-35", "All", "USA", "fitness"⟩, 3⟩) = false :=
  rfl

/-- C7 as amended: the social-media prompt always contains the literal
copy value and the SEO prompt always contains the literal content and,
when present, the literal target keyword (their placeholders are
triple-brace, raw); the ad-copy prompt contains the HTML-escaped value
of every field (its placeholders are double-brace), which coincides
with the literal value whenever the field holds no character that
Handlebars escapes. -/
theorem prompt_contains_field_values :
    (∀ i : GenerateSocialMediaContentInput,
        strContains i.copy (generateSocialMediaContentPrompt i) = true)
    ∧ (∀ c k : String,
        strContains c (optimizeContentForSeoPrompt ⟨c, some k⟩) = true
        ∧ strContains k (optimizeContentForSeoPrompt ⟨c, some k⟩) = true
        ∧ strContains c (optimizeContentForSeoPrompt ⟨c, none⟩) = true)
    ∧ (∀ i : GenerateAdCopyVariationsInput,
        strContains (hbEscape (jsNumToString i.numberOfVariations))
            (generateAdCopyVariationsPrompt i) = true
        ∧ strContains (hbEscape i.productName) (generateAdCopyVariationsPrompt i) = true
        ∧ strContains (hbEscape i.productDescription) (generateAdCopyVariationsPrompt i) = true
        ∧ strContains (hbEscape i.targetAudience.ageRange)
            (generateAdCopyVariationsPrompt i) = true
        ∧ strContains (hbEscape i.targetAudience.gender)
            (generateAdCopyVariationsPrompt i) = true
        ∧ strContains (hbEscape i.targetAudience.location)
            (generateAdCopyVariationsPrompt i) = true
        ∧ strContains (hbEscape i.targetAudience.interests)
            (generateAdCopyVariationsPrompt i) = true)
    ∧ (∀ i : GenerateAdCopyVariationsInput, hbNeedsEscape i.productName = false →
        strContains i.productName (generateAdCopyVariationsPrompt i) = true) := by
  refine ⟨?_, ?_, adcopy_prompt_contains_escaped_fields, ?_⟩
  · intro i
    unfold generateSocialMediaContentPrompt
    apply strContains_append_left
    exact strContains_append_right _ _ _ (strContains_self _)
  · intro c k
    refine ⟨?_, ?_, ?_⟩
    · unfold optimizeContentForSeoPrompt
      iterate 3 apply strContains_append_left
      exact strContains_append_right _ _ _ (strContains_self _)
    · unfold optimizeContentForSeoPrompt
      apply strContains_append_left
      exact strContains_append_right _ _ _ (strContains_self _)
    · unfold optimizeContentForSeoPrompt
      iterate 3 apply strContains_append_left
      exact strContains_append_right _ _ _ (strContains_self _)
  · intro i h
    have b := (adcopy_prompt_contains_escaped_fields i).2.1
    rwa [hbEscape_eq_self _ h] at b

set_option maxRecDepth 200000 in
/-- Witness for C7 as amended: the concrete product name Smartwatch Pro
holds no escapable character, and it appears literally in the rendered
canonical ad-copy prompt. -/
theorem prompt_contains_field_values_witness :
    hbNeedsEscape "Smartwatch Pro" = false
    ∧ strContains "Smartwatch Pro"
        (generateAdCopyVariationsPrompt
          ⟨"Smartwatch Pro", "Tracks fitness", ⟨"25-35", "All", "USA", "fitness"⟩, 3⟩) = true :=
  ⟨rfl, prompt_contains_field_values.2.2.2
    ⟨"Smartwatch Pro", "Tracks fitness", ⟨"25-35", "All", "USA", "fitness"⟩, 3⟩ rfl⟩

set_option maxRecDepth 200000 in
/-- Counterexample to C4: at a concrete benign input, the prompt
rendered by the template wired into the canonical
generateAdCopyVariations flow module (the one the dashboard imports)
contains neither the name AIDA nor the name PAS. -/
theorem canonical_adcopy_prompt_lacks_aida_pas :
    strContains "AIDA"
        (generateAdCopyVariationsPrompt
          ⟨"Smartwatch Pro", "Tracks fitness", ⟨"25-35", "All", "USA", "fitness"⟩, 3⟩) = false
    ∧ strContains "PAS"
        (generateAdCopyVariationsPrompt
          ⟨"Smartwatch Pro", "Tracks fitness", ⟨"25-35", "All", "USA", "fitness"⟩, 3⟩) = false :=
  ⟨rfl, rfl⟩

set_option maxRecDepth 200000 in
/-- C4 as amended: the AIDA and PAS framework names appear, for every
input, in the prompt of the secondary copy of the ad-copy flow stored
alongside the dashboard page, while the prompt of the canonical flow
module names neither framework at a benign concrete input. -/
theorem aida_pas_named_only_in_dashboard_copy :
    (∀ i : GenerateAdCopyVariationsInput,
        strContains "AIDA" (generateAdCopyVariationsPromptDashboardCopy i) = true
        ∧ strContains "PAS" (generateAdCopyVariationsPromptDashboardCopy i) = true)
    ∧ strContains "AIDA"
        (generateAdCopyVariationsPrompt
          ⟨"Smartwatch Pro", "Tracks fitness", ⟨"25-35", "All", "USA", "fitness"⟩, 3⟩) = false
    ∧ strContains "PAS"
        (generateAdCopyVariationsPrompt
          ⟨"Smartwatch Pro", "Tracks fitness", ⟨"25-35", "All", "USA", "fitness"⟩, 3⟩) = false := by
  refine ⟨fun i => ⟨?_, ?_⟩, rfl, rfl⟩
  · unfold generateAdCopyVariationsPromptDashboardCopy
    exact strContains_append_right _ _ _ (by rfl)
  · unfold generateAdCopyVariationsPromptDashboardCopy
    exact strContains_append_right _ _ _ (by rfl)
